import Mathlib

/-!
Shallow embedding of the `playwright-test-reporter` repository
(`src/reporter.ts`, `src/utils.ts`, `src/types.ts`) and proofs about it.

Modelling conventions:
* JavaScript `Map<string, T>` iteration order is insertion order, so a map is
  embedded as a `List (String × T)` (or just its value list when keys are
  irrelevant to the code being modelled).
* JavaScript numbers holding durations are embedded as `ℚ`.
* Optional / possibly-`undefined` strings are embedded as `String`, with `""`
  standing for "absent": JavaScript's `x || d` treats `undefined` and `""`
  identically (both falsy), which `jsOr` reproduces.
-/

/-- Boolean prefix test on lists. -/
def listPrefixOfB : List Char → List Char → Bool
  | [], _ => true
  | _ :: _, [] => false
  | a :: as, b :: bs => if a = b then listPrefixOfB as bs else false

/-- Boolean contiguous-sublist test on lists. -/
def listInfixOfB (p : List Char) : List Char → Bool
  | [] => listPrefixOfB p []
  | b :: bs => listPrefixOfB p (b :: bs) || listInfixOfB p bs

/-- JavaScript `String.prototype.includes`: substring containment. -/
def jsIncludes (s pattern : String) : Bool :=
  listInfixOfB pattern.toList s.toList

/-- JavaScript `s || d` on strings: `d` when `s` is falsy (empty), else `s`. -/
def jsOr (s d : String) : String :=
  if s = "" then d else s

/-- `TestError` from `types.ts`: an error captured on an attempt
(`stack` is optional; `""` encodes absent). -/
structure TestError where
  message : String
  stack : String
  deriving Repr, DecidableEq

/-- `AttemptInfo` from `types.ts`: one attempt of a test. -/
structure AttemptInfo where
  status : String
  duration : ℚ
  errors : List TestError
  deriving Repr, DecidableEq

/-- `TestCaseDetails` from `types.ts` (fields the reporter reads; `location`
is carried alongside `testFile` in the source and is omitted here as it is
never inspected). -/
structure TestCaseDetails where
  testId : String
  testTitle : String
  suiteTitle : String
  testFile : String
  outcome : String
  status : String
  owningTeam : String
  deriving Repr, DecidableEq

/-- `TestRecord` from `types.ts`: a test plus all its attempts. -/
structure TestRecord where
  test : TestCaseDetails
  attempts : List AttemptInfo
  deriving Repr, DecidableEq

/-- `TestFailure` from `types.ts`. -/
structure TestFailure where
  testId : String
  testTitle : String
  suiteTitle : String
  errorMessage : String
  errorStack : String
  duration : ℚ
  owningTeam : String
  isTimeout : Bool
  errorCategory : String
  testFile : String
  deriving Repr, DecidableEq

/-- `SlowTest` from `types.ts`. -/
structure SlowTest where
  testTitle : String
  duration : ℚ
  deriving Repr, DecidableEq

/-- `TestUtils.categorizeError` from `utils.ts`: ordered, case-sensitive
substring rules, first match wins, fallback `"Unknown"`. -/
def categorizeError (message : String) : String :=
  if jsIncludes message "No node found" || jsIncludes message "not visible" then
    "ElementNotFound"
  else if jsIncludes message "Timeout" || jsIncludes message "timed out" then
    "Timeout/DelayedElement"
  else if jsIncludes message "selector" || jsIncludes message "locator" then
    "SelectorChanged"
  else if jsIncludes message "expect(" || jsIncludes message "assertion failed" then
    "AssertionFailure"
  else if jsIncludes message "Network" || jsIncludes message "fetch failed"
      || jsIncludes message "status=" then
    "NetworkError"
  else if jsIncludes message "javascript error" || jsIncludes message "undefined is not"
      || jsIncludes message "null" then
    "JavaScriptError"
  else if jsIncludes message "navigation" || jsIncludes message "page.goto" then
    "NavigationError"
  else if jsIncludes message "element is not clickable" || jsIncludes message "intercepted" then
    "ElementInteractionError"
  else if jsIncludes message "permission" || jsIncludes message "access denied" then
    "PermissionError"
  else
    "Unknown"

/-- True when `categorizeError` would match one of its nine substring rules. -/
def matchesAnyCategoryRule (message : String) : Bool :=
  jsIncludes message "No node found" || jsIncludes message "not visible"
    || jsIncludes message "Timeout" || jsIncludes message "timed out"
    || jsIncludes message "selector" || jsIncludes message "locator"
    || jsIncludes message "expect(" || jsIncludes message "assertion failed"
    || jsIncludes message "Network" || jsIncludes message "fetch failed"
    || jsIncludes message "status="
    || jsIncludes message "javascript error" || jsIncludes message "undefined is not"
    || jsIncludes message "null"
    || jsIncludes message "navigation" || jsIncludes message "page.goto"
    || jsIncludes message "element is not clickable" || jsIncludes message "intercepted"
    || jsIncludes message "permission" || jsIncludes message "access denied"

/-- `TestUtils.outcomeToStatus` from `utils.ts`. -/
def outcomeToStatus (outcome : String) : String :=
  if outcome = "skipped" then "skipped"
  else if outcome = "expected" then "passed"
  else if outcome = "unexpected" then "failed"
  else if outcome = "flaky" then "failed"
  else outcome

/-- `TestUtils.calculateAverageTime` from `utils.ts`. -/
def calculateAverageTime (durations : List ℚ) : ℚ :=
  if durations.length = 0 then 0
  else (durations.foldl (fun sum duration => sum + duration) 0) / durations.length

/-- The pool `findSlowestTests` draws from: every individually passed attempt,
paired with its test's title, in encounter order. -/
def passedAttemptPool (records : List TestRecord) : List SlowTest :=
  records.flatMap fun r =>
    (r.attempts.filter fun a => a.status == "passed").map fun a =>
      { testTitle := r.test.testTitle, duration := a.duration }

/-- The ordering used by `findSlowestTests`'s comparator
`(a, b) => b.duration - a.duration`: `a` may precede `b` iff
`b.duration ≤ a.duration`. -/
def slowTestLE (a b : SlowTest) : Bool :=
  decide (b.duration ≤ a.duration)

/-- `TestUtils.findSlowestTests` from `utils.ts`: flatten passed attempts,
stable-sort descending by duration (JavaScript `Array.prototype.sort` is
stable), take the first `limit`. -/
def findSlowestTests (records : List TestRecord) (limit : Nat) : List SlowTest :=
  ((passedAttemptPool records).mergeSort slowTestLE).take limit

/-- Result shape of `TestUtils.processTestResults`. -/
structure ProcessedResults where
  passedCount : Nat
  testCount : Nat
  skippedCount : Nat
  failedCount : Nat
  failures : List TestFailure
  passedDurations : List ℚ
  deriving Repr, DecidableEq

/-- The accumulator at loop entry in `processTestResults`
(`failedCount` is assigned only after the loop). -/
def emptyResults : ProcessedResults :=
  { passedCount := 0, testCount := 0, skippedCount := 0, failedCount := 0,
    failures := [], passedDurations := [] }

/-- Stand-in for `attempts[attempts.length - 1]` on an empty array; the
reporter never produces a record with zero attempts (`onTestEnd` creates the
record and pushes an attempt in the same call), and theorems that read the
final attempt assume attempts are non-empty. -/
def defaultAttempt : AttemptInfo :=
  { status := "", duration := 0, errors := [] }

/-- The `Failure` that `processTestResults` builds for a record with final
outcome `unexpected`, from the record's last attempt. -/
def buildUnexpectedFailure (test : TestCaseDetails) (finalAttempt : AttemptInfo) : TestFailure :=
  let isTimeout := finalAttempt.errors.any fun e => jsIncludes e.message "timeout"
  let combinedStack := String.intercalate "\n" (finalAttempt.errors.map fun e => e.stack)
  let errorMessage := (finalAttempt.errors.head?.map TestError.message).getD ""
  { testId := test.testId
    testTitle := test.testTitle
    suiteTitle := jsOr test.suiteTitle "Unknown Suite"
    errorMessage := errorMessage
    errorStack := combinedStack
    duration := finalAttempt.duration
    owningTeam := jsOr test.owningTeam "Unknown Team"
    isTimeout := isTimeout
    errorCategory := categorizeError errorMessage
    testFile := test.testFile }

/-- The `Failure` that `processTestResults` builds for a record whose final
outcome is neither `expected`/`flaky`/`unexpected`/`skipped`. -/
def buildErroredFailure (test : TestCaseDetails) (finalAttempt : AttemptInfo)
    (finalOutcome : String) : TestFailure :=
  let errorMessage :=
    if finalAttempt.status = "interrupted" then "Test was interrupted"
    else "Unknown outcome: " ++ finalOutcome
  { testId := test.testId
    testTitle := test.testTitle
    suiteTitle := jsOr test.suiteTitle "Unknown Suite"
    errorMessage := errorMessage
    errorStack := ""
    duration := finalAttempt.duration
    owningTeam := jsOr test.owningTeam "Unknown Team"
    isTimeout := false
    errorCategory := categorizeError errorMessage
    testFile := test.testFile }

/-- The body of the `for (const {test, attempts} of testRecords.values())`
loop in `TestUtils.processTestResults`. -/
def processRecord (acc : ProcessedResults) (r : TestRecord) : ProcessedResults :=
  let acc1 := { acc with testCount := acc.testCount + 1 }
  let finalOutcome := r.test.outcome
  let finalAttempt := r.attempts.getLastD defaultAttempt
  if finalOutcome = "expected" ∨ finalOutcome = "flaky" then
    { acc1 with
      passedCount := acc1.passedCount + 1
      passedDurations := acc1.passedDurations ++
        ((r.attempts.filter fun a => a.status == "passed").map AttemptInfo.duration) }
  else if finalOutcome = "unexpected" then
    { acc1 with failures := acc1.failures ++ [buildUnexpectedFailure r.test finalAttempt] }
  else if finalOutcome = "skipped" then
    { acc1 with skippedCount := acc1.skippedCount + 1 }
  else
    { acc1 with failures := acc1.failures ++ [buildErroredFailure r.test finalAttempt finalOutcome] }

/-- `TestUtils.processTestResults` from `utils.ts`: fold the loop body over
the record list (the map's values in insertion order), then set
`failedCount = failures.length`. -/
def processTestResults (records : List TestRecord) : ProcessedResults :=
  let res := records.foldl processRecord emptyResults
  { res with failedCount := res.failures.length }

/-- The same loop as `processTestResults`, instrumented to also return the
store it iterated: each iteration reads a record and leaves it in place,
mirroring that the source loop never writes to the map. -/
def processLoop : List TestRecord → ProcessedResults → ProcessedResults × List TestRecord
  | [], acc => (acc, [])
  | r :: rs, acc =>
    let rest := processLoop rs (processRecord acc r)
    (rest.1, r :: rest.2)

/-- Pointwise merge of two `ProcessedResults` (counts add, lists append). -/
def combineResults (x y : ProcessedResults) : ProcessedResults :=
  { passedCount := x.passedCount + y.passedCount
    testCount := x.testCount + y.testCount
    skippedCount := x.skippedCount + y.skippedCount
    failedCount := x.failedCount + y.failedCount
    failures := x.failures ++ y.failures
    passedDurations := x.passedDurations ++ y.passedDurations }

/-- Content of `.last-run.json` as written by
`PlaywrightTestReporter.saveLastRunStatus`. -/
structure LastRunData where
  status : String
  failedTests : List String
  deriving Repr, DecidableEq

/-- `PlaywrightTestReporter.saveLastRunStatus` from `reporter.ts`: filters the
record store on the *captured* `test.status` field and reports the run as
failed iff `hasFailed`. -/
def saveLastRunStatus (records : List TestRecord) (hasFailed : Bool) : LastRunData :=
  { status := if hasFailed then "failed" else "passed"
    failedTests := (records.filter fun r => r.test.status == "failed").map
      fun r => jsOr r.test.testId "" }

/-- The fields of `TestSummary` (`types.ts`) that `onEnd` computes
(`totalTimeDisplay` and `buildInfo` depend on wall-clock time and environment
and are omitted). `failedCount` is JavaScript number subtraction, embedded as
`Int`. -/
structure TestSummary where
  failures : List TestFailure
  testCount : Nat
  passedCount : Nat
  skippedCount : Nat
  failedCount : Int
  averageTime : ℚ
  slowestTest : ℚ
  slowestTests : List SlowTest
  deriving Repr, DecidableEq

/-- The reporter state that `onEnd` reads. -/
structure ReporterState where
  testRecords : List TestRecord
  nonTestErrorCount : Nat
  hasInterruptedTests : Bool
  maxSlowTestsToShow : Nat
  deriving Repr, DecidableEq

/-- Observable effects of `PlaywrightTestReporter.onEnd`. -/
structure EndOutcome where
  exitCode : Nat
  noTestsMessageLogged : Bool
  summaryWritten : Option TestSummary
  lastRun : Option LastRunData
  deriving Repr, DecidableEq

/-- `PlaywrightTestReporter.onEnd` from `reporter.ts`: process results,
short-circuit when no test was recorded, otherwise build and persist the
summary and `.last-run.json` and set the exit code from
`hasErrors = failures.length > 0 || nonTestErrors.length > 0 || hasInterruptedTests`. -/
def onEnd (st : ReporterState) : EndOutcome :=
  let res := processTestResults st.testRecords
  if res.testCount = 0 then
    { exitCode := 1, noTestsMessageLogged := true, summaryWritten := none, lastRun := none }
  else
    let summary : TestSummary :=
      { failures := res.failures
        testCount := res.testCount
        passedCount := res.passedCount
        skippedCount := res.skippedCount
        failedCount := (res.testCount : Int) - (res.passedCount : Int) - (res.skippedCount : Int)
        averageTime := calculateAverageTime res.passedDurations
        slowestTest := res.passedDurations.foldl max 0
        slowestTests := findSlowestTests st.testRecords st.maxSlowTestsToShow }
    let hasErrors := decide (0 < res.failures.length) || decide (0 < st.nonTestErrorCount)
      || st.hasInterruptedTests
    { exitCode := if hasErrors then 1 else 0
      noTestsMessageLogged := false
      summaryWritten := some summary
      lastRun := some (saveLastRunStatus st.testRecords (decide (0 < res.failures.length))) }

/-- The per-completion inputs `onTestEnd` reads from the runner's `TestCase`
(`owningTeam` is `TestUtils.getOwningTeam(test)`, whose value depends on
annotations and environment variables and enters here as data). -/
structure TestCaseInput where
  id : String
  title : String
  parentTitle : String
  file : String
  outcome : String
  owningTeam : String
  deriving Repr, DecidableEq

/-- The per-completion inputs `onTestEnd` reads from the runner's
`TestResult`; `duration` is in milliseconds. -/
structure TestResultInput where
  status : String
  duration : ℚ
  errors : List TestError
  retry : Nat
  deriving Repr, DecidableEq

/-- The reporter state that `onTestEnd` reads and writes: the keyed record
map (insertion order), the `FileHandler`'s accumulated failures, and the
interruption flag. -/
structure RunState where
  testRecords : List (String × TestRecord)
  fileFailures : List TestFailure
  hasInterruptedTests : Bool
  deriving Repr, DecidableEq

/-- Association-list lookup standing for `Map.get`. -/
def lookupRecord (records : List (String × TestRecord)) (title : String) : Option TestRecord :=
  (records.find? fun p => p.1 == title).map Prod.snd

/-- In-place update of the keyed record standing for mutation through
`Map.get`. -/
def updateRecord (records : List (String × TestRecord)) (title : String)
    (f : TestRecord → TestRecord) : List (String × TestRecord) :=
  records.map fun p => if p.1 = title then (p.1, f p.2) else p

/-- `PlaywrightTestReporter.onTestEnd` from `reporter.ts`: create the record
on first sight (capturing outcome, derived status and owning team), push the
attempt, hand failed/timed-out attempts to the `FileHandler`, and latch the
interruption flag. -/
def onTestEnd (st : RunState) (test : TestCaseInput) (result : TestResultInput) : RunState :=
  let timeTakenSec := result.duration / 1000
  let records0 :=
    if (lookupRecord st.testRecords test.title).isSome then st.testRecords
    else st.testRecords ++ [(test.title,
      { test :=
          { testId := test.id
            testTitle := test.title
            suiteTitle := jsOr test.parentTitle "Unknown Suite"
            testFile := test.file
            outcome := test.outcome
            status := outcomeToStatus test.outcome
            owningTeam := test.owningTeam }
        attempts := [] })]
  let records1 := updateRecord records0 test.title fun rec =>
    { rec with attempts := rec.attempts ++
        [{ status := result.status
           duration := timeTakenSec
           errors := result.errors.map fun e =>
             { message := jsOr e.message "No error message", stack := e.stack } }] }
  let fileFailures1 :=
    if result.status = "failed" ∨ result.status = "timedOut" then
      let errorMessage := jsOr ((result.errors.head?.map TestError.message).getD "") "Unknown error"
      st.fileFailures ++
        [{ testId := test.id
           testTitle := test.title
           suiteTitle := jsOr test.parentTitle "Unknown Suite"
           errorMessage := errorMessage
           errorStack := (result.errors.head?.map TestError.stack).getD ""
           duration := timeTakenSec
           owningTeam := test.owningTeam
           isTimeout := result.status == "timedOut"
           errorCategory := categorizeError errorMessage
           testFile := test.file }]
    else st.fileFailures
  { testRecords := records1
    fileFailures := fileFailures1
    hasInterruptedTests := st.hasInterruptedTests || result.status == "interrupted" }

/-- Sample attempt: failed with a capital-T "Timeout ..." message. -/
def attemptFailedTimeoutMsg : AttemptInfo :=
  { status := "failed", duration := 2,
    errors := [{ message := "Timeout of 5000ms exceeded", stack := "" }] }

/-- Sample attempt: passed in 3 seconds. -/
def attemptPassed3 : AttemptInfo :=
  { status := "passed", duration := 3, errors := [] }

/-- Sample test identity with captured outcome `flaky`. -/
def detailsFlaky : TestCaseDetails :=
  { testId := "t1", testTitle := "flaky test", suiteTitle := "suite",
    testFile := "a.spec.ts", outcome := "flaky", status := outcomeToStatus "flaky",
    owningTeam := "Unknown" }

/-- Sample record: flaky test, one failed then one passed attempt. -/
def recFlaky : TestRecord :=
  { test := detailsFlaky, attempts := [attemptFailedTimeoutMsg, attemptPassed3] }

/-- Sample test identity with captured outcome `unexpected`. -/
def detailsUnexpected : TestCaseDetails :=
  { testId := "t2", testTitle := "failing test", suiteTitle := "suite",
    testFile := "a.spec.ts", outcome := "unexpected", status := outcomeToStatus "unexpected",
    owningTeam := "Unknown" }

/-- Sample record: unexpected outcome whose last attempt's message is
`"Timeout of 5000ms exceeded"` (capital T, no lowercase "timeout"). -/
def recUnexpectedTimeoutMsg : TestRecord :=
  { test := detailsUnexpected, attempts := [attemptFailedTimeoutMsg] }

/-- Sample attempt for the spec's Scenario C: status `timedOut`, message
`"Network status=500"`. -/
def attemptScenarioC : AttemptInfo :=
  { status := "timedOut", duration := 4,
    errors := [{ message := "Network status=500", stack := "" }] }

/-- Sample record for the spec's Scenario C. -/
def recScenarioC : TestRecord :=
  { test := { detailsUnexpected with testId := "t3", testTitle := "network test" },
    attempts := [attemptScenarioC] }

/-- Sample reporter state holding only the flaky record. -/
def stateFlakyOnly : ReporterState :=
  { testRecords := [recFlaky], nonTestErrorCount := 0, hasInterruptedTests := false,
    maxSlowTestsToShow := 3 }

/-- Sample reporter state with no recorded tests (but other error state set). -/
def stateNoTests : ReporterState :=
  { testRecords := [], nonTestErrorCount := 2, hasInterruptedTests := true,
    maxSlowTestsToShow := 3 }

/-- Sample reporter state holding only the Scenario C record. -/
def stateScenarioC : ReporterState :=
  { testRecords := [recScenarioC], nonTestErrorCount := 0, hasInterruptedTests := false,
    maxSlowTestsToShow := 3 }

/-- Sample empty in-run state. -/
def runState0 : RunState :=
  { testRecords := [], fileFailures := [], hasInterruptedTests := false }

/-- Sample per-completion test-case input. -/
def caseInput0 : TestCaseInput :=
  { id := "t9", title := "T", parentTitle := "S", file := "f.ts",
    outcome := "unexpected", owningTeam := "QA" }

/-- Sample timed-out attempt result (31000 ms). -/
def resultTimedOut : TestResultInput :=
  { status := "timedOut", duration := 31000,
    errors := [{ message := "page closed", stack := "stackA" }], retry := 0 }

/-! ### Helper lemmas -/

theorem processRecord_eq_combine (acc : ProcessedResults) (r : TestRecord) :
    processRecord acc r = combineResults acc (processRecord emptyResults r) := by
  unfold processRecord
  dsimp only
  split
  · simp [combineResults, emptyResults]
  · split
    · simp [combineResults, emptyResults]
    · split
      · simp [combineResults, emptyResults]
      · simp [combineResults, emptyResults]

theorem combineResults_empty_right (x : ProcessedResults) :
    combineResults x emptyResults = x := by
  cases x
  simp [combineResults, emptyResults]

theorem combineResults_assoc (x y z : ProcessedResults) :
    combineResults (combineResults x y) z = combineResults x (combineResults y z) := by
  cases x; cases y; cases z
  simp [combineResults, Nat.add_assoc]

theorem foldl_processRecord_eq (rs : List TestRecord) (acc : ProcessedResults) :
    rs.foldl processRecord acc = combineResults acc (rs.foldl processRecord emptyResults) := by
  induction rs generalizing acc with
  | nil => simp [combineResults_empty_right]
  | cons r rs ih =>
    simp only [List.foldl_cons]
    rw [ih (processRecord acc r), ih (processRecord emptyResults r),
      processRecord_eq_combine acc r, combineResults_assoc]

theorem processLoop_spec (rs : List TestRecord) (acc : ProcessedResults) :
    processLoop rs acc = (rs.foldl processRecord acc, rs) := by
  induction rs generalizing acc with
  | nil => rfl
  | cons r rs ih => simp [processLoop, ih, List.foldl_cons]

theorem testCount_processRecord (acc : ProcessedResults) (r : TestRecord) :
    (processRecord acc r).testCount = acc.testCount + 1 := by
  unfold processRecord
  dsimp only
  split
  · rfl
  · split
    · rfl
    · split <;> rfl

theorem testCount_foldl_processRecord (rs : List TestRecord) (acc : ProcessedResults) :
    (rs.foldl processRecord acc).testCount = acc.testCount + rs.length := by
  induction rs generalizing acc with
  | nil => simp
  | cons r rs ih =>
    simp only [List.foldl_cons, ih, testCount_processRecord, List.length_cons]
    omega

theorem testCount_processTestResults (records : List TestRecord) :
    (processTestResults records).testCount = records.length := by
  simp [processTestResults, testCount_foldl_processRecord, emptyResults]

/-- The invariant that each record lands in exactly one bucket. -/
def ResultsPartition (x : ProcessedResults) : Prop :=
  x.testCount = x.passedCount + x.skippedCount + x.failures.length

theorem processRecord_partition (acc : ProcessedResults) (r : TestRecord)
    (h : ResultsPartition acc) : ResultsPartition (processRecord acc r) := by
  unfold ResultsPartition at h ⊢
  unfold processRecord
  dsimp only
  split
  · simp; omega
  · split
    · simp; omega
    · split
      · simp; omega
      · simp; omega

theorem foldl_processRecord_partition (rs : List TestRecord) (acc : ProcessedResults)
    (h : ResultsPartition acc) : ResultsPartition (rs.foldl processRecord acc) := by
  induction rs generalizing acc with
  | nil => simpa using h
  | cons r rs ih =>
    simp only [List.foldl_cons]
    exact ih _ (processRecord_partition acc r h)

theorem partition_processTestResults (records : List TestRecord) :
    (processTestResults records).testCount =
      (processTestResults records).passedCount +
      (processTestResults records).skippedCount +
      (processTestResults records).failures.length := by
  have h := foldl_processRecord_partition records emptyResults
    (by simp [ResultsPartition, emptyResults])
  unfold ResultsPartition at h
  simpa [processTestResults] using h

theorem outcomeToStatus_eq_failed_iff (o : String) :
    outcomeToStatus o = "failed" ↔ o = "unexpected" ∨ o = "flaky" ∨ o = "failed" := by
  unfold outcomeToStatus
  split
  · rename_i h; simp [h]
  · split
    · rename_i h1 h2; simp [h2]
    · split
      · rename_i h1 h2 h3; simp [h3]
      · split
        · rename_i h1 h2 h3 h4; simp [h4]
        · rename_i h1 h2 h3 h4; simp [h2, h3, h4]

theorem categorizeError_of_no_rule (m : String) (h : matchesAnyCategoryRule m = false) :
    categorizeError m = "Unknown" := by
  simp only [matchesAnyCategoryRule, Bool.or_eq_false_iff] at h
  simp [categorizeError, h]

theorem slowTestLE_trans (a b c : SlowTest)
    (hab : slowTestLE a b) (hbc : slowTestLE b c) : slowTestLE a c := by
  simp only [slowTestLE, decide_eq_true_eq] at *
  exact le_trans hbc hab

theorem slowTestLE_total (a b : SlowTest) : slowTestLE a b || slowTestLE b a := by
  simp only [slowTestLE, Bool.or_eq_true, decide_eq_true_eq]
  exact le_total b.duration a.duration

/-! ### Claim theorems -/

/-- C2: when zero tests were recorded, `onEnd` short-circuits: it logs the
no-tests message, writes neither a summary nor `.last-run.json`, and sets
exit code 1, whatever the rest of the state. -/
theorem onEnd_no_tests_short_circuit (st : ReporterState)
    (h : (processTestResults st.testRecords).testCount = 0) :
    (onEnd st).exitCode = 1 ∧ (onEnd st).noTestsMessageLogged = true ∧
    (onEnd st).summaryWritten = none ∧ (onEnd st).lastRun = none := by
  unfold onEnd
  dsimp only
  rw [if_pos h]
  exact ⟨rfl, rfl, rfl, rfl⟩

/-- Witness for C2: the zero-test state exits 1 without a summary. -/
theorem onEnd_no_tests_short_circuit_witness :
    (onEnd stateNoTests).exitCode = 1 ∧ (onEnd stateNoTests).noTestsMessageLogged = true ∧
    (onEnd stateNoTests).summaryWritten = none ∧ (onEnd stateNoTests).lastRun = none :=
  onEnd_no_tests_short_circuit stateNoTests (by decide)

/-- C1: with at least one test recorded, `onEnd` exits 0 exactly when
`hasErrors = (failures.length > 0) ∨ (non-test-error count > 0) ∨
(had-interruption flag)` is false, and exits 1 exactly when it is true. -/
theorem onEnd_exit_signal (st : ReporterState) (h : st.testRecords ≠ []) :
    (((onEnd st).exitCode = 0) ↔
      ¬(0 < (processTestResults st.testRecords).failures.length ∨
        0 < st.nonTestErrorCount ∨ st.hasInterruptedTests = true)) ∧
    (((onEnd st).exitCode = 1) ↔
      (0 < (processTestResults st.testRecords).failures.length ∨
        0 < st.nonTestErrorCount ∨ st.hasInterruptedTests = true)) := by
  have hc : ¬ (processTestResults st.testRecords).testCount = 0 := by
    rw [testCount_processTestResults]
    simpa using h
  unfold onEnd
  dsimp only
  rw [if_neg hc]
  by_cases h1 : 0 < (processTestResults st.testRecords).failures.length <;>
    by_cases h2 : 0 < st.nonTestErrorCount <;>
      by_cases h3 : st.hasInterruptedTests = true <;>
        simp [h1, h2, h3]

/-- Witness for C1: a run holding one flaky (passed) test and no other
errors exits 0. -/
theorem onEnd_exit_signal_witness :
    (((onEnd stateFlakyOnly).exitCode = 0) ↔
      ¬(0 < (processTestResults stateFlakyOnly.testRecords).failures.length ∨
        0 < stateFlakyOnly.nonTestErrorCount ∨ stateFlakyOnly.hasInterruptedTests = true)) ∧
    (((onEnd stateFlakyOnly).exitCode = 1) ↔
      (0 < (processTestResults stateFlakyOnly.testRecords).failures.length ∨
        0 < stateFlakyOnly.nonTestErrorCount ∨ stateFlakyOnly.hasInterruptedTests = true)) :=
  onEnd_exit_signal stateFlakyOnly (by decide)

/-- C6: `categorizeError` is a pure function on the message text: identical
messages give identical categories; the rules apply in order, so
`"selector timed out"` matches rule 2 (`Timeout/DelayedElement`) and not
rule 3 (`SelectorChanged`); a message matching no rule yields `"Unknown"`. -/
theorem categorizeError_contract :
    (∀ m1 m2 : String, m1 = m2 → categorizeError m1 = categorizeError m2) ∧
    categorizeError "selector timed out" = "Timeout/DelayedElement" ∧
    categorizeError "selector timed out" ≠ "SelectorChanged" ∧
    (∀ m : String, matchesAnyCategoryRule m = false → categorizeError m = "Unknown") :=
  ⟨fun _ _ h => congrArg categorizeError h, by decide, by decide,
    fun m h => categorizeError_of_no_rule m h⟩

/-- Witness for C6: concrete instances of the quantified parts. -/
theorem categorizeError_contract_witness :
    categorizeError "selector timed out" = categorizeError "selector timed out" ∧
    categorizeError "hello world" = "Unknown" :=
  ⟨categorizeError_contract.1 "selector timed out" "selector timed out" rfl,
    categorizeError_contract.2.2.2 "hello world" (by decide)⟩

/-- C9: summary aggregation is a pure fold: the loop returns the store it
iterated unchanged, its output is the fold of the loop body, and running the
aggregation again on the store left behind yields the identical output. -/
theorem aggregation_pure_fold (records : List TestRecord) :
    (processLoop records emptyResults).2 = records ∧
    (processLoop records emptyResults).1 = records.foldl processRecord emptyResults ∧
    processTestResults (processLoop records emptyResults).2 = processTestResults records := by
  rw [processLoop_spec]
  exact ⟨rfl, rfl, rfl⟩

theorem processRecord_empty_passed (r : TestRecord)
    (h : r.test.outcome = "expected" ∨ r.test.outcome = "flaky") :
    processRecord emptyResults r =
      { passedCount := 1, testCount := 1, skippedCount := 0, failedCount := 0,
        failures := [],
        passedDurations :=
          (r.attempts.filter fun a => a.status == "passed").map AttemptInfo.duration } := by
  unfold processRecord emptyResults
  dsimp only
  rw [if_pos h]
  simp

/-- C3: a record whose captured outcome is `expected` or `flaky` is counted
as passed, produces no `Failure`, leaves the skipped count alone, and
contributes exactly the durations of its individually passed attempts to
`passedDurations`. -/
theorem flaky_record_counts_passed (pre post : List TestRecord) (r : TestRecord)
    (h : r.test.outcome = "expected" ∨ r.test.outcome = "flaky") :
    (processTestResults (pre ++ r :: post)).passedCount
        = (processTestResults (pre ++ post)).passedCount + 1 ∧
    (processTestResults (pre ++ r :: post)).failures
        = (processTestResults (pre ++ post)).failures ∧
    (processTestResults (pre ++ r :: post)).skippedCount
        = (processTestResults (pre ++ post)).skippedCount ∧
    (processTestResults (pre ++ r :: post)).passedDurations
        = (processTestResults pre).passedDurations
          ++ ((r.attempts.filter fun a => a.status == "passed").map AttemptInfo.duration)
          ++ (processTestResults post).passedDurations := by
  have key : (pre ++ r :: post).foldl processRecord emptyResults
      = combineResults (pre.foldl processRecord emptyResults)
          (combineResults (processRecord emptyResults r)
            (post.foldl processRecord emptyResults)) := by
    rw [List.foldl_append, foldl_processRecord_eq (r :: post)]
    congr 1
    simp only [List.foldl_cons]
    rw [foldl_processRecord_eq post]
  have key2 : (pre ++ post).foldl processRecord emptyResults
      = combineResults (pre.foldl processRecord emptyResults)
          (post.foldl processRecord emptyResults) := by
    rw [List.foldl_append, foldl_processRecord_eq post]
  simp only [processTestResults, key, key2, processRecord_empty_passed r h, combineResults]
  refine ⟨by omega, by simp, by omega, by simp⟩

/-- Witness for C3: the flaky sample record (one failed, one passed attempt)
is the only record; it counts as passed, yields no failure, and contributes
only the passed attempt's duration. -/
theorem flaky_record_counts_passed_witness :
    (processTestResults ([] ++ recFlaky :: [])).passedCount
        = (processTestResults ([] ++ [])).passedCount + 1 ∧
    (processTestResults ([] ++ recFlaky :: [])).failures
        = (processTestResults ([] ++ [])).failures ∧
    (processTestResults ([] ++ recFlaky :: [])).skippedCount
        = (processTestResults ([] ++ [])).skippedCount ∧
    (processTestResults ([] ++ recFlaky :: [])).passedDurations
        = (processTestResults []).passedDurations
          ++ ((recFlaky.attempts.filter fun a => a.status == "passed").map AttemptInfo.duration)
          ++ (processTestResults []).passedDurations :=
  flaky_record_counts_passed [] [] recFlaky (Or.inr rfl)

/-- C7: each record lands in exactly one bucket, so
`testCount = passedCount + skippedCount + failures.length`; the aggregator
returns `failedCount = failures.length`, and the summary's
`failedCount = testCount - passedCount - skippedCount` equals the failures
list's length. -/
theorem summary_failed_count_partition (st : ReporterState) (h : st.testRecords ≠ []) :
    (processTestResults st.testRecords).testCount =
      (processTestResults st.testRecords).passedCount +
      (processTestResults st.testRecords).skippedCount +
      (processTestResults st.testRecords).failures.length ∧
    (processTestResults st.testRecords).failedCount =
      (processTestResults st.testRecords).failures.length ∧
    ((onEnd st).summaryWritten.map TestSummary.failedCount) =
      some ((processTestResults st.testRecords).failures.length : Int) := by
  have hpart := partition_processTestResults st.testRecords
  refine ⟨hpart, by simp [processTestResults], ?_⟩
  have hc : ¬ (processTestResults st.testRecords).testCount = 0 := by
    rw [testCount_processTestResults]
    simpa using h
  unfold onEnd
  dsimp only
  rw [if_neg hc]
  simp only [Option.map_some', Option.some.injEq]
  omega

/-- Witness for C7: the Scenario C state (one unexpected test). -/
theorem summary_failed_count_partition_witness :
    (processTestResults stateScenarioC.testRecords).testCount =
      (processTestResults stateScenarioC.testRecords).passedCount +
      (processTestResults stateScenarioC.testRecords).skippedCount +
      (processTestResults stateScenarioC.testRecords).failures.length ∧
    (processTestResults stateScenarioC.testRecords).failedCount =
      (processTestResults stateScenarioC.testRecords).failures.length ∧
    ((onEnd stateScenarioC).summaryWritten.map TestSummary.failedCount) =
      some ((processTestResults stateScenarioC.testRecords).failures.length : Int) :=
  summary_failed_count_partition stateScenarioC (by decide)

/-- C10: a completed attempt with status `failed` or `timedOut` immediately
appends one provisional failure to the `FileHandler`, whose `isTimeout` is
true exactly when the status is `timedOut`, and whose message and stack come
from the attempt's first error only. -/
theorem onTestEnd_provisional_failure (st : RunState) (test : TestCaseInput)
    (result : TestResultInput)
    (h : result.status = "failed" ∨ result.status = "timedOut") :
    ∃ f, (onTestEnd st test result).fileFailures = st.fileFailures ++ [f] ∧
      (f.isTimeout = true ↔ result.status = "timedOut") ∧
      f.errorMessage
        = jsOr ((result.errors.head?.map TestError.message).getD "") "Unknown error" ∧
      f.errorStack = (result.errors.head?.map TestError.stack).getD "" := by
  unfold onTestEnd
  dsimp only
  rw [if_pos h]
  refine ⟨_, rfl, ?_, rfl, rfl⟩
  simp [beq_iff_eq]

/-- Witness for C10: a timed-out first attempt produces a provisional
failure with `isTimeout = true` and the first error's message and stack. -/
theorem onTestEnd_provisional_failure_witness :
    ∃ f, (onTestEnd runState0 caseInput0 resultTimedOut).fileFailures
        = runState0.fileFailures ++ [f] ∧
      (f.isTimeout = true ↔ resultTimedOut.status = "timedOut") ∧
      f.errorMessage
        = jsOr ((resultTimedOut.errors.head?.map TestError.message).getD "") "Unknown error" ∧
      f.errorStack = (resultTimedOut.errors.head?.map TestError.stack).getD "" :=
  onTestEnd_provisional_failure runState0 caseInput0 resultTimedOut (Or.inr rfl)

/-- Counterexample to C4 as stated: the message
`"Timeout of 5000ms exceeded"` contains the substring `"Timeout"`, yet the
run-end Failure built for it has `isTimeout = false`, because the code tests
for the lowercase substring `"timeout"` only. -/
theorem unexpected_isTimeout_counterexample :
    jsIncludes "Timeout of 5000ms exceeded" "Timeout" = true ∧
    (processTestResults [recUnexpectedTimeoutMsg]).failures.map TestFailure.isTimeout
      = [false] := by
  constructor
  · decide
  · decide

/-- C4 (amended): for a record with captured outcome `unexpected`, the
run-end Failure's `isTimeout` is true iff some error message of the last
attempt contains the lowercase substring `"timeout"` — derived from message
text, not the attempt's status; in the spec's Scenario C (last attempt
status `timedOut`, message `"Network status=500"`) it is `false` with
category `NetworkError`. -/
theorem unexpected_isTimeout_message_derived :
    (∀ (r : TestRecord) (a : AttemptInfo), r.test.outcome = "unexpected" →
      r.attempts.getLast? = some a →
      ∀ f ∈ (processTestResults [r]).failures,
        (f.isTimeout = true ↔ ∃ e ∈ a.errors, jsIncludes e.message "timeout" = true)) ∧
    (processTestResults [recScenarioC]).failures.map
        (fun f => (f.isTimeout, f.errorCategory)) = [(false, "NetworkError")] := by
  constructor
  · intro r a hout hlast f hf
    have hfail : (processTestResults [r]).failures
        = [buildUnexpectedFailure r.test (r.attempts.getLastD defaultAttempt)] := by
      simp only [processTestResults, List.foldl_cons, List.foldl_nil]
      unfold processRecord
      dsimp only
      rw [if_neg (by simp [hout]), if_pos hout]
      simp [emptyResults]
    rw [hfail] at hf
    simp only [List.mem_singleton] at hf
    subst hf
    have hD : r.attempts.getLastD defaultAttempt = a := by
      rw [List.getLastD_eq_getLast?, hlast]
      rfl
    rw [hD]
    simp [buildUnexpectedFailure, List.any_eq_true]
  · decide

/-- Witness for C4 (amended): the Scenario C failure record satisfies the
message-derived characterisation. -/
theorem unexpected_isTimeout_message_derived_witness :
    (buildUnexpectedFailure recScenarioC.test attemptScenarioC).isTimeout = true ↔
      ∃ e ∈ attemptScenarioC.errors, jsIncludes e.message "timeout" = true :=
  unexpected_isTimeout_message_derived.1 recScenarioC attemptScenarioC rfl rfl
    (buildUnexpectedFailure recScenarioC.test attemptScenarioC) (by decide)

/-- Counterexample to C5 as stated: a store holding one flaky record (which
the aggregator counts as passed, producing no Failure) still writes that
record's id into `failedTests`, because `outcomeToStatus` maps `flaky` to
`failed`; so `failedTests` is not the set of ids of tests that failed. -/
theorem lastRun_failedTests_counterexample :
    (onEnd stateFlakyOnly).lastRun
      = some { status := "passed", failedTests := ["t1"] } ∧
    (processTestResults stateFlakyOnly.testRecords).failures = [] := by
  constructor
  · decide
  · decide

/-- C5 (amended): `.last-run.json` has status `"failed"` exactly when the
run produced at least one Failure, and `failedTests` contains exactly the
ids of records whose captured status is `"failed"` — i.e. captured outcome
`unexpected`, `flaky`, or the literal `failed` — which may include flaky
(passed) tests and exclude errored/interrupted ones. -/
theorem lastRun_status_contract (st : ReporterState) (hne : st.testRecords ≠ [])
    (hwf : ∀ r ∈ st.testRecords, r.test.status = outcomeToStatus r.test.outcome) :
    ∃ lr, (onEnd st).lastRun = some lr ∧
      (lr.status = "failed" ↔ 0 < (processTestResults st.testRecords).failures.length) ∧
      (∀ s, s ∈ lr.failedTests ↔ ∃ r ∈ st.testRecords,
        (r.test.outcome = "unexpected" ∨ r.test.outcome = "flaky" ∨ r.test.outcome = "failed")
          ∧ jsOr r.test.testId "" = s) := by
  have hc : ¬ (processTestResults st.testRecords).testCount = 0 := by
    rw [testCount_processTestResults]
    simpa using hne
  unfold onEnd
  dsimp only
  rw [if_neg hc]
  refine ⟨_, rfl, ?_, ?_⟩
  · unfold saveLastRunStatus
    dsimp only
    by_cases hf : 0 < (processTestResults st.testRecords).failures.length
    · simp [hf]
    · simp [hf]
  · intro s
    unfold saveLastRunStatus
    dsimp only
    simp only [List.mem_map, List.mem_filter]
    constructor
    · rintro ⟨r, ⟨hr, hst⟩, hid⟩
      refine ⟨r, hr, ?_, hid⟩
      rw [← outcomeToStatus_eq_failed_iff, ← hwf r hr]
      exact beq_iff_eq.mp hst
    · rintro ⟨r, hr, hout, hid⟩
      refine ⟨r, ⟨hr, ?_⟩, hid⟩
      rw [beq_iff_eq, hwf r hr, outcomeToStatus_eq_failed_iff]
      exact hout

/-- Witness for C5 (amended): the flaky-only state. -/
theorem lastRun_status_contract_witness :
    ∃ lr, (onEnd stateFlakyOnly).lastRun = some lr ∧
      (lr.status = "failed" ↔
        0 < (processTestResults stateFlakyOnly.testRecords).failures.length) ∧
      (∀ s, s ∈ lr.failedTests ↔ ∃ r ∈ stateFlakyOnly.testRecords,
        (r.test.outcome = "unexpected" ∨ r.test.outcome = "flaky" ∨ r.test.outcome = "failed")
          ∧ jsOr r.test.testId "" = s) :=
  lastRun_status_contract stateFlakyOnly (by decide) (by decide)

/-- C8: `findSlowestTests` returns at most `limit` entries, sorted
non-increasing by duration, each drawn from the pool of individually passed
attempts; it is the `limit`-prefix of the stable descending sort of that
pool, and the stable sort keeps tied entries in encounter order. -/
theorem findSlowestTests_spec (records : List TestRecord) (limit : Nat) :
    (findSlowestTests records limit).length ≤ limit ∧
    (findSlowestTests records limit).Pairwise (fun a b => b.duration ≤ a.duration) ∧
    (∀ x ∈ findSlowestTests records limit, x ∈ passedAttemptPool records) ∧
    findSlowestTests records limit
      = ((passedAttemptPool records).mergeSort slowTestLE).take limit ∧
    (∀ a b : SlowTest, [a, b].Sublist (passedAttemptPool records) →
      b.duration ≤ a.duration →
      [a, b].Sublist ((passedAttemptPool records).mergeSort slowTestLE)) := by
  refine ⟨?_, ?_, ?_, rfl, ?_⟩
  · simp only [findSlowestTests, List.length_take]
    exact min_le_left _ _
  · have hs := @List.sorted_mergeSort _ slowTestLE slowTestLE_trans slowTestLE_total
      (passedAttemptPool records)
    have ht : (findSlowestTests records limit).Pairwise fun a b => slowTestLE a b :=
      hs.sublist (List.take_sublist _ _)
    exact ht.imp fun h => by simpa [slowTestLE] using h
  · intro x hx
    have hx2 : x ∈ (passedAttemptPool records).mergeSort slowTestLE :=
      List.take_subset _ _ hx
    exact List.mem_mergeSort.mp hx2
  · intro a b hab hle
    exact List.pair_sublist_mergeSort slowTestLE_trans slowTestLE_total
      (by simpa [slowTestLE] using hle) hab

/-- Witness for C8: two tied passed attempts keep their encounter order in
the stable sort, and the output length respects the limit. -/
theorem findSlowestTests_spec_witness :
    (findSlowestTests [recFlaky, recFlaky] 3).length ≤ 3 ∧
    List.Sublist [({ testTitle := "flaky test", duration := 3 } : SlowTest),
        { testTitle := "flaky test", duration := 3 }]
      ((passedAttemptPool [recFlaky, recFlaky]).mergeSort slowTestLE) :=
  ⟨(findSlowestTests_spec [recFlaky, recFlaky] 3).1,
    (findSlowestTests_spec [recFlaky, recFlaky] 3).2.2.2.2
      { testTitle := "flaky test", duration := 3 }
      { testTitle := "flaky test", duration := 3 }
      (by decide) (by decide)⟩
